import Mathlib

/-!
Verification of the WeatherFlow_PiConsole ingestion subsystem.

Shallow embedding of the provisioning service (`lib/config.py`), the
forecast synchronizer (`lib/forecast.py`) and the telemetry stream
client's subscription logic (`main.py`).  Python machine behaviour is
modelled as follows: fallible lookups return `Except PyErr`; `dict`
membership tests become `Option` matches; string containment (`'x' in s`)
becomes infix search on character lists; times are whole seconds since
the epoch in the station's local time zone.
-/

namespace WFPi

/-- Python exception kinds caught by the forecast extraction code
(`except (IndexError, KeyError, ValueError)` in `lib/forecast.py`). -/
inductive PyErr where
  | keyError (k : String)
  | indexError
  | valueError
deriving DecidableEq, Repr

/-- `d[k]` on a modelled optional field: raises `KeyError` when absent. -/
def getKey {α : Type} (o : Option α) (k : String) : Except PyErr α :=
  match o with
  | some v => .ok v
  | none => .error (.keyError k)

/-- `l[i]` on a Python list: raises `IndexError` when out of range
(negative indices do not arise in the modelled code paths). -/
def listIdx {α : Type} (l : List α) (i : Nat) : Except PyErr α :=
  match l.get? i with
  | some v => .ok v
  | none => .error .indexError

/-- `l.index(x)`: position of the first occurrence, `ValueError` if absent. -/
def listIndexOf (l : List Nat) (x : Nat) : Except PyErr Nat :=
  match l.indexOf? x with
  | some i => .ok i
  | none => .error .valueError

/-- Does `needle` match at the head of `hay`? -/
def matchesAt : List Char → List Char → Bool
  | [], _ => true
  | _ :: _, [] => false
  | a :: as, b :: bs => a == b && matchesAt as bs

/-- Does `needle` occur contiguously anywhere in `hay`? -/
def hasSub (needle : List Char) : List Char → Bool
  | [] => matchesAt needle []
  | b :: bs => matchesAt needle (b :: bs) || hasSub needle bs

/-- Python's `'needle' in haystack` substring test. -/
def strContains (haystack needle : String) : Bool :=
  hasSub needle.toList haystack.toList

/-- `bisect.bisect(l, x)` (= `bisect_right`) on a sorted list: the
insertion point to the right of existing entries equal to `x`, i.e. the
number of elements `≤ x`.  `lib/forecast.py` line 83/88 applies it to the
sorted hourly timestamp list. -/
def bisect (l : List Nat) (x : Nat) : Nat :=
  l.countP (fun t => decide (t ≤ x))

/-- `Hours[bisect.bisect(Hours, now)]` — the timestamp the code reads at
the insertion point (`lib/forecast.py` line 88); `none` models the
`IndexError` taken when the insertion point is past the end. -/
def selectBucketTime (hours : List Nat) (now : Nat) : Option Nat :=
  hours.get? (bisect hours now)

/-! ### Forecast reschedule timing (`lib/forecast.py` lines 206–215)

Instants are whole seconds since the epoch in the station's local time
zone, so `math.ceil` over `total_seconds()` differences is exact. -/

/-- `Tz.localize(datetime.combine(Now.date(), time(Now.hour,0,0)) +
timedelta(hours=1))` — the top of the clock hour following `now`. -/
def downloadTime (now : Nat) : Nat :=
  now - now % 3600 + 3600

/-- Success branch (line 212):
`secondsSched = math.ceil((downloadTime - funcCalled).total_seconds())`. -/
def secondsSchedOk (funcCalled now : Nat) : Int :=
  (downloadTime now : Int) - funcCalled

/-- Failure branch (line 214):
`secondsSched = 300 + math.ceil((funcCalled - Now).total_seconds())`.
Note the sign: `funcCalled ≤ Now`, so this is 300 minus the elapsed
processing time. -/
def secondsSchedFail (funcCalled now : Nat) : Int :=
  300 + ((funcCalled : Int) - now)

/-! ### Icon whitelist (`lib/forecast.py` lines 170–178 and 279–287) -/

/-- The icon whitelist exactly as Python evaluates the list literal. The
source writes `'possibly-thunderstorm-day'` and
`'possibly-thunderstorm-night'` as adjacent string literals with no comma
between them (lines 173–174 and 282–283), so Python concatenates them
into the single element
`'possibly-thunderstorm-daypossibly-thunderstorm-night'`. -/
def iconWhitelist : List String :=
  ["clear-day", "clear-night", "rainy", "possibly-rainy-day",
   "possibly-rainy-night", "snow", "possibly-snow-day",
   "possibly-snow-night", "sleet", "possibly-sleet-day",
   "possibly-sleet-night", "thunderstorm",
   "possibly-thunderstorm-daypossibly-thunderstorm-night",
   "windy", "foggy", "cloudy",
   "partly-cloudy-day", "partly-cloudy-night"]

/-- `metData['Icon'] = Icon if Icon in [...] else '--'`. -/
def validateIcon (icon : String) : String :=
  if icon ∈ iconWhitelist then icon else "--"

/-- Python `str.replace` on character lists: replace each non-overlapping
occurrence of `old` (scanning left to right) by `new`.  The fuel is the
input length; every step consumes at least one character. -/
def replaceAux (old new : List Char) : Nat → List Char → List Char
  | 0, s => s
  | _ + 1, [] => []
  | fuel + 1, c :: cs =>
    if old ≠ [] ∧ matchesAt old (c :: cs) then
      new ++ replaceAux old new fuel (List.drop (old.length - 1) cs)
    else c :: replaceAux old new fuel cs

/-- Python `s.replace(old, new)`. -/
def pyReplace (s old new : String) : String :=
  String.mk (replaceAux old.toList new.toList s.toList.length s.toList)

/-- `hourlyCurrent['icon'].replace('cc-','')` (line 101): Python's
`str.replace` removes every occurrence of `'cc-'`. -/
def downloadIcon (raw : String) : String :=
  pyReplace raw "cc-" ""

/-! ### Conditions-change time (`lib/forecast.py` lines 125–138) -/

/-- Lines 127–132: `conditionList` is the conditions of
`hourlyForecasts[hoursInd:]`; `Ind` is the first position in that
(relative) list whose conditions differ from the current bucket's, or
`len(conditionList)-1` when none differs; the code then reads
`Hours[Ind]` — indexing the absolute timestamp list with the relative
position. -/
def condChangeTime (hours : List Nat) (conds : List String) (hoursInd : Nat) :
    Except PyErr Nat := do
  let cur ← listIdx conds hoursInd
  let condList := conds.drop hoursInd
  let ind := match condList.findIdx? (fun c => c != cur) with
    | some j => j
    | none => condList.length - 1
  listIdx hours ind

/-- Modelled from the spec for refinement comparison only: the spec says
the embedded time is that of "the first hourly forecast entry, scanning
forward from the current bucket, whose conditions value differs from the
current bucket's conditions" — i.e. the absolute index is
`hoursInd + Ind`. -/
def specCondChangeTime (hours : List Nat) (conds : List String) (hoursInd : Nat) :
    Except PyErr Nat := do
  let cur ← listIdx conds hoursInd
  let condList := conds.drop hoursInd
  let ind := match condList.findIdx? (fun c => c != cur) with
    | some j => j
    | none => condList.length - 1
  listIdx hours (hoursInd + ind)

/-! ### Provisioning: remote metadata fetch loops (`lib/config.py` lines 300–354) -/

/-- `MAXRETRIES = 3` (config.py line 38). -/
def MAXRETRIES : Nat := 3

/-- A remote API response as the provisioning code inspects it:
`hasStatus` models `'status' in <response>`, `statusMessage` models
`<response>['status']['status_message']`. -/
structure ApiResponse where
  hasStatus : Bool
  statusMessage : String
deriving DecidableEq, Repr

/-- Outcome of one `while True` fetch loop. `ok prompts` = the loop hit
`break`, having re-prompted the user `prompts` times; `exited` =
`sys.exit(...)`; `starved` = the scripted response list ran out with the
loop still running. -/
inductive ReqResult where
  | ok (prompts : Nat)
  | exited
  | starved
deriving DecidableEq, Repr

/-- Station-metadata fetch loop (config.py lines 311–337).  Each
iteration consumes the next scripted response.  `'NOT FOUND'` in the
status message re-prompts for a Station ID without touching `RETRIES`;
`'SUCCESS'` breaks; anything else (including a response with no
`'status'` key) increments `RETRIES`; after each iteration the loop
exits the process when `RETRIES >= MAXRETRIES`. -/
def stationFetchLoop : List ApiResponse → Nat → Nat → ReqResult
  | [], _, _ => .starved
  | r :: rest, retries, prompts =>
    if r.hasStatus then
      if strContains r.statusMessage "NOT FOUND" then
        if retries ≥ MAXRETRIES then .exited
        else stationFetchLoop rest retries (prompts + 1)
      else if strContains r.statusMessage "SUCCESS" then .ok prompts
      else if retries + 1 ≥ MAXRETRIES then .exited
      else stationFetchLoop rest (retries + 1) prompts
    else if retries + 1 ≥ MAXRETRIES then .exited
    else stationFetchLoop rest (retries + 1) prompts

/-- Observation-units fetch loop (config.py lines 340–354), translated
faithfully: each iteration fetches the next observation response into
`OBSERVATION`, but the status checks on lines 346–347 read `STATION`,
i.e. the `station` argument below — the already-fetched station
response — not the observation response just fetched. -/
def observationFetchLoop (station : ApiResponse) : List ApiResponse → Nat → ReqResult
  | [], _ => .starved
  | _ :: rest, retries =>
    if station.hasStatus then
      if strContains station.statusMessage "SUCCESS" then .ok 0
      else if retries + 1 ≥ MAXRETRIES then .exited
      else observationFetchLoop station rest (retries + 1)
    else if retries + 1 ≥ MAXRETRIES then .exited
    else observationFetchLoop station rest (retries + 1)

/-! ### Provisioning: version comparison in `update()` (`lib/config.py` lines 99–165) -/

/-- `Version = 'v3.6'` (config.py line 31), the default schema's
`System.Version` value. -/
def defaultVersionStr : String := "v3.6"

/-- Split a character list on `'.'`. -/
def splitDotAux : List Char → List Char → List (List Char)
  | [], acc => [acc.reverse]
  | c :: cs, acc =>
    if c = '.' then acc.reverse :: splitDotAux cs []
    else splitDotAux cs (c :: acc)

/-- Read a non-empty all-digit character list as a natural number. -/
def parseNatDigits (l : List Char) : Option Nat :=
  if l ≠ [] ∧ l.all Char.isDigit then
    some (l.foldl (fun n c => n * 10 + (c.toNat - 48)) 0)
  else none

/-- `packaging.version.parse` restricted to the plain numeric release
versions that occur here (`v3.5.1`, `v3.51`, `v3.6`, …): strip a leading
`v` and read the dot-separated numeric components. -/
def parseVersion (s : String) : Option (List Nat) :=
  let cs := match s.toList with
    | 'v' :: rest => rest
    | cs => cs
  (splitDotAux cs []).mapM parseNatDigits

/-- Does the list contain a positive component? -/
def hasPositive : List Nat → Bool
  | [] => false
  | b :: bs => decide (0 < b) || hasPositive bs

/-- Semantic-version ordering on release component lists, shorter lists
padded with zeros (as `packaging.version` compares releases).  An
exhausted left list is smaller iff the right remainder has a positive
component; an exhausted right list is never greater. -/
def verLtL : List Nat → List Nat → Bool
  | [], bs => hasPositive bs
  | _ :: _, [] => false
  | a :: as, b :: bs => decide (a < b) || (decide (a = b) && verLtL as bs)

/-- `if currentVersion == 'v3.51': currentVersion = 'v3.5.1'`
(config.py lines 117–118). -/
def tweakVersion (s : String) : String :=
  if s = "v3.51" then "v3.5.1" else s

/-- `version.parse(currentVersion) < version.parse(defaultVersion)`
(config.py line 127). The `false` fallback is unreachable for the
parseable version strings this development quantifies over. -/
def versionOlder (cur : String) : Bool :=
  match parseVersion (tweakVersion cur), parseVersion defaultVersionStr with
  | some a, some b => verLtL a b
  | _, _ => false

/-- `update()`: the whole rebuild-and-write block (lines 127–165) runs
only when the current version is older; otherwise the function returns
with `wfpiconsole.ini` untouched.  `current` is the existing file's
contents, `rebuilt` abstracts whatever the wizard would write. -/
def updateResult (cur : String) (current rebuilt : List String) : List String :=
  if versionOlder cur then rebuilt else current

/-! ### Provisioning: temperature cut-off keys (`lib/config.py` lines 283–296) -/

/-- Python `int()` applied to a float/rational: truncation toward zero. -/
def pyInt (q : ℚ) : ℤ :=
  if 0 ≤ q then ⌊q⌋ else -⌊-q⌋

/-- The eight temperature-derived cut-off keys (config.py line 286). -/
def cutoffKeys : List String :=
  ["ExtremelyCold", "FreezingCold", "VeryCold", "Cold", "Mild", "Warm", "Hot", "VeryHot"]

/-- Lines 286–292 for a cut-off key: with `'c' in Config['Units']['Temp']`
the schema literal is written unchanged; with `'f'` the written value is
`str(int(float(Value)*9/5 + 32))`.  With neither (unreachable for the
fetched units) Python would leave `Value` unbound — modelled as `none`. -/
def writeCutoff (tempUnit : String) (v : ℤ) : Option String :=
  if strContains tempUnit "c" then some (toString v)
  else if strContains tempUnit "f" then some (toString (pyInt ((v : ℚ) * 9 / 5 + 32)))
  else none

/-! ### Telemetry stream client: subscriptions on `connection_opened`
(`main.py` lines 401–423) -/

/-- Outbound websocket frame type. -/
inductive WSType where
  | listenStart
  | listenRapidStart
deriving DecidableEq, Repr

/-- An outbound subscription frame
`{"type":..., "device_id":..., "id":...}`. -/
structure WSMsg where
  type : WSType
  device_id : String
  label : String
deriving DecidableEq, Repr

/-- `WebsocketDecodeMessage` on a `connection_opened` frame: the ordered
list of frames passed to `WebsocketSendMessage`.  Python truthiness of
the configured ID strings becomes a non-emptiness test. -/
def connOpenedMsgs (tempestID skyID outAirID inAirID : String) : List WSMsg :=
  (if tempestID ≠ "" then
    [⟨.listenStart, tempestID, "Sky"⟩, ⟨.listenRapidStart, tempestID, "rapidWind"⟩]
   else if skyID ≠ "" then
    [⟨.listenStart, skyID, "Sky"⟩, ⟨.listenRapidStart, skyID, "rapidWind"⟩]
   else [])
  ++ (if outAirID ≠ "" then [⟨.listenStart, outAirID, "OutdoorAir"⟩] else [])
  ++ (if inAirID ≠ "" then [⟨.listenStart, inAirID, "IndoorAir"⟩] else [])

/-! ### Forecast payload shape (`lib/forecast.py`)

Every field a lookup can miss is an `Option`; a `none` models the key
being absent from the JSON object (→ `KeyError`). -/

/-- One entry of `forecast.hourly`. -/
structure WFHour where
  time : Option Nat
  air_temperature : Option ℚ
  wind_avg : Option ℚ
  wind_gust : Option ℚ
  wind_direction : Option ℚ
  icon : Option String
  conditions : Option String
  local_day : Option Nat
  precip_type : Option String
  precip_probability : Option ℚ
  precip : Option ℚ

/-- One entry of `forecast.daily`. -/
structure WFDay where
  day_num : Option Nat
  month_num : Option Nat
  air_temp_high : Option ℚ
  air_temp_low : Option ℚ
  precip_probability : Option ℚ
  icon : Option String
  sunrise : Option Nat

/-- The `station` object of the payload. -/
structure WFStation where
  is_station_online : Option Bool
  includes_tempest : Option Bool

/-- The `forecast` object of the payload. -/
structure WFForecastObj where
  hourly : Option (List WFHour)
  daily : Option (List WFDay)

/-- The decoded JSON payload held in `metData['Dict']`. -/
structure WFPayload where
  forecast : Option WFForecastObj
  station : Option WFStation

/-- The forecast snapshot fields written by `Download` (both the success
assembly, lines 153–181, and the `except` handler, lines 185–204, assign
exactly this field set).  `Time` is the `funcCalled` instant. -/
structure MetData where
  Time : Nat
  Valid : String
  Temp : String
  highTemp : String
  lowTemp : String
  WindSpd : String
  WindGust : String
  WindDir : String
  PrecipPercnt : String
  PrecipDay : String
  PrecipAmount : String
  PrecipType : String
  Conditions : String
  Icon : String
  Status : String
  stationOnline : Bool
  stationUsed : Bool
deriving DecidableEq, Repr

/-- Formatting and unit-conversion collaborators of `Download` that live
outside `src/` (`lib/observationFormat.py`, `lib/derivedVariables.py`)
or in the Python standard library (`datetime.strftime`).  The error-path
claims hold for every choice of these functions, so they are abstracted
as parameters: each one maps the raw extracted quantity to its display
string. -/
structure FormatEnv where
  timeFmt : Nat → String
  condFmt : String → Nat → String
  fmtTemp : ℚ → String
  fmtWind : ℚ → String
  fmtDir : ℚ → ℚ → String
  fmtHumidity : ℚ → String
  fmtPrecip : ℚ → String

/-- A concrete `FormatEnv` used to instantiate the error-path theorems
(the collapse behaviour is independent of the formatters). -/
def trivialFormatEnv : FormatEnv :=
  { timeFmt := fun _ => ""
    condFmt := fun _ _ => ""
    fmtTemp := fun _ => ""
    fmtWind := fun _ => ""
    fmtDir := fun _ _ => ""
    fmtHumidity := fun _ => ""
    fmtPrecip := fun _ => "" }

/-- The `try` block of `Download` (lib/forecast.py lines 75–181),
translated statement by statement into the `Except` monad; any
`KeyError` / `IndexError` / `ValueError` aborts the whole block. -/
def extractForecast (payload : WFPayload) (now funcCalled : Nat) (env : FormatEnv) :
    Except PyErr MetData := do
  let fc ← getKey payload.forecast "forecast"
  let hourlyForecasts ← getKey fc.hourly "hourly"
  let dailyForecasts ← getKey fc.daily "daily"
  let hours ← hourlyForecasts.mapM (fun f => getKey f.time "time")
  let hoursInd := bisect hours now
  let hourlyCurrent ← listIdx hourlyForecasts hoursInd
  let hourlyLocalDay ← getKey hourlyCurrent.local_day "local_day"
  let validTs ← listIdx hours (bisect hours now)
  let dailyDayNum ← dailyForecasts.mapM (fun f => getKey f.day_num "day_num")
  let dailyIdx ← listIndexOf dailyDayNum hourlyLocalDay
  let dailyCurrent ← listIdx dailyForecasts dailyIdx
  let temp ← getKey hourlyCurrent.air_temperature "air_temperature"
  let windSpd ← getKey hourlyCurrent.wind_avg "wind_avg"
  let windGust ← getKey hourlyCurrent.wind_gust "wind_gust"
  let windDir ← getKey hourlyCurrent.wind_direction "wind_direction"
  let iconRaw ← getKey hourlyCurrent.icon "icon"
  let icon := downloadIcon iconRaw
  let precipType := match hourlyCurrent.precip_type with
    | some pt => if pt = "rain" || pt = "snow" then pt else "rain"
    | none => "rain"
  let precipPercnt := (hourlyCurrent.precip_probability).getD 0
  let precipAmount := (hourlyCurrent.precip).getD 0
  let highTemp ← getKey dailyCurrent.air_temp_high "air_temp_high"
  let lowTemp ← getKey dailyCurrent.air_temp_low "air_temp_low"
  let precipDay ← getKey dailyCurrent.precip_probability "precip_probability"
  let condList ← (hourlyForecasts.drop hoursInd).mapM
    (fun f => getKey f.conditions "conditions")
  let curCond ← getKey hourlyCurrent.conditions "conditions"
  let ind := match condList.findIdx? (fun c => c != curCond) with
    | some j => j
    | none => condList.length - 1
  let condTime ← listIdx hours ind
  let st ← getKey payload.station "station"
  let online ← getKey st.is_station_online "is_station_online"
  let used ← getKey st.includes_tempest "includes_tempest"
  .ok { Time := funcCalled
        Valid := env.timeFmt validTs
        Temp := env.fmtTemp temp
        highTemp := env.fmtTemp highTemp
        lowTemp := env.fmtTemp lowTemp
        WindSpd := env.fmtWind windSpd
        WindGust := env.fmtWind windGust
        WindDir := env.fmtDir windDir windSpd
        PrecipPercnt := env.fmtHumidity precipPercnt
        PrecipDay := env.fmtHumidity precipDay
        PrecipAmount := env.fmtPrecip precipAmount
        PrecipType := precipType
        Conditions := env.condFmt curCond condTime
        Icon := validateIcon icon
        Status := ""
        stationOnline := online
        stationUsed := used }

/-- The `except (IndexError, KeyError, ValueError)` handler
(lib/forecast.py lines 185–204): every display field becomes the `'--'`
sentinel, `Conditions` the empty string, `Status` the unavailable
message, both station flags `False`. -/
def collapsedMetData (funcCalled : Nat) : MetData :=
  { Time := funcCalled
    Valid := "--"
    Temp := "--"
    highTemp := "--"
    lowTemp := "--"
    WindSpd := "--"
    WindGust := "--"
    WindDir := "--"
    PrecipPercnt := "--"
    PrecipDay := "--"
    PrecipAmount := "--"
    PrecipType := "--"
    Conditions := ""
    Icon := "--"
    Status := "Forecast currently\nunavailable..."
    stationOnline := false
    stationUsed := false }

/-- `Download` from the `try` block onward: `fetchFailed` is the
`funcError` state left by the response verification (lines 67–72);
`now` is the `int(UNIX.time())` instant used by the bucket lookup and
`nowEnd` the `Now` instant re-read on line 209 for rescheduling.
Returns the written snapshot, the final `funcError` flag, and the
`secondsSched` delay handed to `Clock.schedule_once`. -/
def DownloadModel (payload : WFPayload) (fetchFailed : Bool)
    (funcCalled now nowEnd : Nat) (env : FormatEnv) : MetData × Bool × Int :=
  let (md, funcError) := match extractForecast payload now funcCalled env with
    | .ok md => (md, fetchFailed)
    | .error _ => (collapsedMetData funcCalled, true)
  (md, funcError,
    if funcError then secondsSchedFail funcCalled nowEnd
    else secondsSchedOk funcCalled nowEnd)

/-! ### Daily panel extraction (`lib/forecast.py` lines 223–287) -/

/-- `weekdays = ['Mon','Tue','Wed','Thu','Fri','Sat','Sun']` (line 237). -/
def weekdayNames : List String :=
  ["Mon", "Tue", "Wed", "Thu", "Fri", "Sat", "Sun"]

/-- Python `'%02d' % n` for a natural number. -/
def pyFmt02 (n : Nat) : String :=
  if n < 10 then "0" ++ toString n else toString n

/-- Rounding half to even, as CPython's float formatting does. -/
def pyRound0 (q : ℚ) : ℤ :=
  if q - ⌊q⌋ < 1/2 then ⌊q⌋
  else if 1/2 < q - ⌊q⌋ then ⌊q⌋ + 1
  else if ⌊q⌋ % 2 = 0 then ⌊q⌋ else ⌊q⌋ + 1

/-- Python `'{:.0f}'.format q`: round half to even, then print the
integer. (The modelled call sites only format non-negative values, so
the `'-0'` corner of CPython's formatting does not arise.) -/
def pyFormat0f (q : ℚ) : String :=
  toString (pyRound0 q)

/-- Modelled from the spec: `lib/observationFormat.py`
(`observation.Units`) is not under `src/`.  Per the spec's
Unit/Formatting Library contract it converts a quantity plus source unit
into the configured target unit; for temperature from Celsius,
`°F = °C×9/5 + 32`. -/
def unitsTemp (v : ℚ) (target : String) : ℚ × String :=
  if target = "f" then (v * 9 / 5 + 32, "f") else (v, "c")

/-- One panel of the daily-forecast screen as `ExtractDaily` fills it
(lines 271–287). -/
structure DayPanel where
  date : String
  tempMax : String × String
  tempMin : String × String
  precip : String × String
  weekday : String
  weather : String
deriving DecidableEq, Repr

/-- The `try` block of the `ExtractDaily` loop body (lines 241–251):
index the daily list (`IndexError` when panel `i` has no entry), read
each required field (`KeyError` when missing), compute the weekday from
the sunrise timestamp.  `yearOf` abstracts
`datetime.fromtimestamp(..., Tz).year` and `weekdayOf` abstracts
`calendar.weekday`, both Python standard library. -/
def dailyTryExtract (daily : List WFDay) (i : Nat)
    (yearOf : Nat → Int) (weekdayOf : Int → Nat → Nat → Fin 7) :
    Except PyErr (String × ℚ × ℚ × ℚ × String × Fin 7) := do
  let d ← listIdx daily i
  let mn ← getKey d.month_num "month_num"
  let dn ← getKey d.day_num "day_num"
  let dateStr := pyFmt02 mn ++ "/" ++ pyFmt02 dn
  let tMax ← getKey d.air_temp_high "air_temp_high"
  let tMin ← getKey d.air_temp_low "air_temp_low"
  let pr ← getKey d.precip_probability "precip_probability"
  let w ← getKey d.icon "icon"
  let sr ← getKey d.sunrise "sunrise"
  let wd := weekdayOf (yearOf sr) mn dn
  .ok (dateStr, tMax, tMin, pr, w, wd)

/-- One iteration of the `ExtractDaily` panel loop (lines 239–287): on
`IndexError` or `KeyError` the placeholder values of lines 252–265 are
used; either way the temperatures then pass through unit conversion and
`'{:.0f}'` formatting, and the icon through the whitelist check. -/
def extractDailyPanel (daily : List WFDay) (tempUnit : String)
    (yearOf : Nat → Int) (weekdayOf : Int → Nat → Nat → Fin 7) (i : Nat) : DayPanel :=
  let (dateStr, tMaxC, tMinC, prV, weatherV, wdV) :=
    match dailyTryExtract daily i yearOf weekdayOf with
    | .ok v => v
    | .error _ => ("0/0", 0, 0, 0, "XX", (0 : Fin 7))
  let tMax := unitsTemp tMaxC tempUnit
  let tMin := unitsTemp tMinC tempUnit
  { date := dateStr
    tempMax := (pyFormat0f tMax.1, tMax.2)
    tempMin := (pyFormat0f tMin.1, tMin.2)
    precip := (pyFormat0f prV, " %")
    weekday := weekdayNames.get ⟨wdV.val, wdV.isLt⟩
    weather := validateIcon weatherV }

end WFPi

namespace WFPi

theorem bisect_take_drop (now : Nat) :
    ∀ l : List Nat, l.Sorted (· ≤ ·) →
      (∀ t ∈ l.take (bisect l now), t ≤ now) ∧
      (∀ t ∈ l.drop (bisect l now), now < t) := by
  intro l
  induction l with
  | nil => intro _; exact ⟨fun t ht => absurd ht (List.not_mem_nil t),
      fun t ht => absurd ht (List.not_mem_nil t)⟩
  | cons a tl ih =>
    intro hs
    rw [List.sorted_cons] at hs
    obtain ⟨ha, htl⟩ := hs
    by_cases hle : a ≤ now
    · have hbc : bisect (a :: tl) now = bisect tl now + 1 := by
        simp [bisect, List.countP_cons, hle]
      obtain ⟨h1, h2⟩ := ih htl
      refine ⟨?_, ?_⟩
      · rw [hbc, List.take_succ_cons]
        intro t ht
        rcases List.mem_cons.mp ht with h | h
        · exact h ▸ hle
        · exact h1 t h
      · rw [hbc, List.drop_succ_cons]
        exact h2
    · have hgt : now < a := Nat.lt_of_not_le hle
      have hzero : bisect (a :: tl) now = 0 := by
        simp only [bisect, List.countP_cons]
        have h0 : tl.countP (fun t => decide (t ≤ now)) = 0 := by
          rw [List.countP_eq_zero]
          intro x hx
          simp only [decide_eq_true_eq]
          exact fun hc => absurd (Nat.lt_of_lt_of_le hgt (ha x hx)) (Nat.not_lt_of_le hc)
        simp [h0, hle]
      rw [hzero]
      refine ⟨fun t ht => absurd ht (by simp), ?_⟩
      rw [List.drop_zero]
      intro t ht
      rcases List.mem_cons.mp ht with h | h
      · exact h ▸ hgt
      · exact Nat.lt_of_lt_of_le hgt (ha t h)

/-- C1, counterexample.  The claim says the selected current-hour bucket
precedes the first timestamp greater than `now` (index 1 for timestamps
`[100,200,300]` at `now = 200`, index 2 at `now = 300`).  The code
instead selects `hourlyForecasts[bisect.bisect(Hours, now)]`: index 2 at
`now = 200`, and an `IndexError` (no bucket) at `now = 300`. -/
theorem c1_bucket_counterexample :
    bisect [100, 200, 300] 200 = 2 ∧ bisect [100, 200, 300] 200 ≠ 1 ∧
    selectBucketTime [100, 200, 300] 300 = none := by
  decide

/-- C1 (amended): for every sorted timestamp list and time `now`, the
bucket index used by `Download` is `bisect.bisect(Hours, now)` — every
timestamp before it is `≤ now` and every timestamp from it on is
`> now`, so the selected bucket is the first entry whose timestamp
exceeds `now`, not the one preceding it; the reported `Valid` time is
the timestamp at that same index.  With `[100,200,300]`: `now = 200`
selects index 2, and `now = 300` leaves no bucket (defined failure). -/
theorem c1_bucket_lookup (hours : List Nat) (now : Nat)
    (hs : hours.Sorted (· ≤ ·)) :
    (∀ t ∈ hours.take (bisect hours now), t ≤ now) ∧
    (∀ t ∈ hours.drop (bisect hours now), now < t) ∧
    selectBucketTime hours now = hours.get? (bisect hours now) ∧
    bisect [100, 200, 300] 200 = 2 ∧
    selectBucketTime [100, 200, 300] 300 = none := by
  refine ⟨(bisect_take_drop now hours hs).1, (bisect_take_drop now hours hs).2,
    rfl, by decide, by decide⟩

/-- Witness for `c1_bucket_lookup` at the concrete sorted list
`[100, 200, 300]` and `now = 200`. -/
theorem c1_bucket_lookup_witness :
    (∀ t ∈ ([100, 200, 300] : List Nat).take (bisect [100, 200, 300] 200), t ≤ 200) ∧
    (∀ t ∈ ([100, 200, 300] : List Nat).drop (bisect [100, 200, 300] 200), 200 < t) ∧
    selectBucketTime [100, 200, 300] 200 = ([100, 200, 300] : List Nat).get? (bisect [100, 200, 300] 200) ∧
    bisect [100, 200, 300] 200 = 2 ∧
    selectBucketTime [100, 200, 300] 300 = none :=
  c1_bucket_lookup [100, 200, 300] 200 (by decide)

/-- C4, counterexample.  The claim says a failed `Download` schedules its
retry at least 300 seconds later (a fixed 5-minute delay *plus* elapsed
processing time).  With the call at instant 1000 and the reschedule
computed at instant 1010 (10 s of processing), the code's delay is
`300 + ceil(funcCalled - Now)` = 290 < 300: the elapsed time is
subtracted, not added. -/
theorem c4_fail_delay_counterexample :
    secondsSchedFail 1000 1010 = 290 ∧ secondsSchedFail 1000 1010 < 300 := by
  decide

/-- C4 (amended): a successful `Download` called at 14:37:00 (2220 s
into the hour) schedules the next fetch `1380` seconds after the call,
provided rescheduling happens before the top of the hour; a failed
`Download` schedules its retry with delay `300 - elapsed` seconds, so
the retry fires exactly 300 seconds after the call time. -/
theorem c4_reschedule (fc now : Nat) :
    (fc % 3600 = 2220 → fc ≤ now → now < fc + 1380 →
      secondsSchedOk fc now = 1380) ∧
    (fc ≤ now →
      secondsSchedFail fc now = 300 - ((now : Int) - fc) ∧
      (now : Int) + secondsSchedFail fc now = fc + 300) := by
  constructor
  · intro h1 h2 h3
    unfold secondsSchedOk downloadTime
    omega
  · intro h
    unfold secondsSchedFail
    constructor <;> omega

/-- Witness for `c4_reschedule`: a call at 52620 s (= 14:37:00) with the
reschedule computed at 52630 s, and a failed call at 1000 s with the
reschedule computed at 1010 s. -/
theorem c4_reschedule_witness :
    secondsSchedOk 52620 52630 = 1380 ∧
    (secondsSchedFail 1000 1010 = 300 - ((1010 : Int) - 1000) ∧
      (1010 : Int) + secondsSchedFail 1000 1010 = 1000 + 300) :=
  ⟨(c4_reschedule 52620 52630).1 (by decide) (by decide) (by decide),
   (c4_reschedule 1000 1010).2 (by decide)⟩

/-- C6: the icon whitelists in `Download` and `ExtractDaily` are written
with a missing comma between `'possibly-thunderstorm-day'` and
`'possibly-thunderstorm-night'`, so Python concatenates the two adjacent
string literals into one element.  Neither thunderstorm variant is in
the evaluated whitelist, and both are mapped to the `'--'` sentinel —
contradicting the claim that the whitelist contains both names and that
those codes are stored exactly.  The merged literal is the element that
is present instead. -/
theorem c6_thunderstorm_icon :
    validateIcon (downloadIcon "cc-possibly-thunderstorm-day") = "--" ∧
    validateIcon "possibly-thunderstorm-day" = "--" ∧
    validateIcon "possibly-thunderstorm-night" = "--" ∧
    "possibly-thunderstorm-day" ∉ iconWhitelist ∧
    "possibly-thunderstorm-night" ∉ iconWhitelist ∧
    "possibly-thunderstorm-daypossibly-thunderstorm-night" ∈ iconWhitelist ∧
    validateIcon "cloudy" = "cloudy" := by
  decide

/-- C7: the conditions-change lookup computes the change position `Ind`
relative to `hourlyForecasts[hoursInd:]` but then reads `Hours[Ind]`
from the absolute timestamp list.  With timestamps `[100,200,300,400]`,
conditions `["x","a","a","b"]` and current bucket index 1, the
conditions change at the entry with timestamp 400 (the spec's reading),
yet the code embeds timestamp 300. -/
theorem c7_conditions_time :
    condChangeTime [100, 200, 300, 400] ["x", "a", "a", "b"] 1 = .ok 300 ∧
    specCondChangeTime [100, 200, 300, 400] ["x", "a", "a", "b"] 1 = .ok 400 ∧
    (300 : Nat) ≠ 400 :=
  ⟨rfl, rfl, by decide⟩

theorem writeCutoff_f_eq (v n : ℤ) (h0 : 0 ≤ (v : ℚ) * 9 / 5 + 32)
    (hf : ⌊(v : ℚ) * 9 / 5 + 32⌋ = n) :
    writeCutoff "f" v = some (toString n) := by
  have hp : pyInt ((v : ℚ) * 9 / 5 + 32) = n := by
    rw [pyInt, if_pos h0, hf]
  calc writeCutoff "f" v = some (toString (pyInt ((v : ℚ) * 9 / 5 + 32))) := rfl
    _ = some (toString n) := by rw [hp]

/-- C8, counterexample.  The claim says the Celsius→Fahrenheit cut-off
conversion rounds to the nearest integer, writing the −4 °C default as
`25`.  The code applies Python `int()` (truncation toward zero) to
−4×9/5+32 = 24.8 and writes `24`. -/
theorem c8_cutoff_counterexample :
    writeCutoff "f" (-4) = some "24" ∧ (some "24" : Option String) ≠ some "25" := by
  refine ⟨(writeCutoff_f_eq (-4) 24 (by norm_num) (by norm_num)).trans rfl, by decide⟩

/-- C8 (amended): for every cut-off value, a Celsius unit writes the
schema literal unchanged and a Fahrenheit unit writes
`str(int(v*9/5 + 32))` with `int()` truncating toward zero; on the eight
schema defaults this yields 24, 32, 39, 48, 57, 64, 73, 82 — in
particular the −4 °C default becomes `24`, not `25`. -/
theorem c8_cutoff_conversion :
    (∀ v : ℤ, writeCutoff "c" v = some (toString v)) ∧
    (∀ v : ℤ, writeCutoff "f" v = some (toString (pyInt ((v : ℚ) * 9 / 5 + 32)))) ∧
    writeCutoff "f" (-4) = some "24" ∧ writeCutoff "f" 0 = some "32" ∧
    writeCutoff "f" 4 = some "39" ∧ writeCutoff "f" 9 = some "48" ∧
    writeCutoff "f" 14 = some "57" ∧ writeCutoff "f" 18 = some "64" ∧
    writeCutoff "f" 23 = some "73" ∧ writeCutoff "f" 28 = some "82" :=
  ⟨fun _ => rfl, fun _ => rfl,
   (writeCutoff_f_eq (-4) 24 (by norm_num) (by norm_num)).trans rfl,
   (writeCutoff_f_eq 0 32 (by norm_num) (by norm_num)).trans rfl,
   (writeCutoff_f_eq 4 39 (by norm_num) (by norm_num)).trans rfl,
   (writeCutoff_f_eq 9 48 (by norm_num) (by norm_num)).trans rfl,
   (writeCutoff_f_eq 14 57 (by norm_num) (by norm_num)).trans rfl,
   (writeCutoff_f_eq 18 64 (by norm_num) (by norm_num)).trans rfl,
   (writeCutoff_f_eq 23 73 (by norm_num) (by norm_num)).trans rfl,
   (writeCutoff_f_eq 28 82 (by norm_num) (by norm_num)).trans rfl⟩

/-- C2: the station loop behaves as claimed (one `NOT FOUND` followed by
`SUCCESS` re-prompts exactly once and proceeds; three non-`SUCCESS`
responses exhaust `MAXRETRIES = 3` and terminate the process), but the
observation loop does not: its status checks read the already-fetched
STATION response, so with the station response reporting `SUCCESS` it
accepts immediately — even when every observation response is malformed
(no `status` key) — instead of retrying that endpoint's own response
and terminating at `MAXRETRIES`. -/
theorem c2_observation_retry_bug :
    stationFetchLoop [⟨true, "NOT FOUND"⟩, ⟨true, "SUCCESS"⟩] 0 0 = .ok 1 ∧
    stationFetchLoop [⟨true, "ERROR"⟩, ⟨true, "ERROR"⟩, ⟨true, "ERROR"⟩] 0 0 = .exited ∧
    observationFetchLoop ⟨true, "SUCCESS"⟩ [⟨false, ""⟩, ⟨false, ""⟩, ⟨false, ""⟩] 0 = .ok 0 := by
  decide

/-- C3: whenever the forecast extraction raises `IndexError`, `KeyError`
or `ValueError`, the whole snapshot collapses: every display field is
the `'--'` sentinel, `Conditions` is empty, `Status` is the unavailable
message, both station flags are `False`, no exception escapes
(`DownloadModel` is total), and the failure reschedule branch is
taken. -/
theorem c3_snapshot_collapse (payload : WFPayload) (fetchFailed : Bool)
    (funcCalled now nowEnd : Nat) (env : FormatEnv) (e : PyErr)
    (h : extractForecast payload now funcCalled env = .error e) :
    (DownloadModel payload fetchFailed funcCalled now nowEnd env).1 =
      collapsedMetData funcCalled ∧
    (DownloadModel payload fetchFailed funcCalled now nowEnd env).1.Valid = "--" ∧
    (DownloadModel payload fetchFailed funcCalled now nowEnd env).1.Temp = "--" ∧
    (DownloadModel payload fetchFailed funcCalled now nowEnd env).1.highTemp = "--" ∧
    (DownloadModel payload fetchFailed funcCalled now nowEnd env).1.lowTemp = "--" ∧
    (DownloadModel payload fetchFailed funcCalled now nowEnd env).1.WindSpd = "--" ∧
    (DownloadModel payload fetchFailed funcCalled now nowEnd env).1.WindGust = "--" ∧
    (DownloadModel payload fetchFailed funcCalled now nowEnd env).1.WindDir = "--" ∧
    (DownloadModel payload fetchFailed funcCalled now nowEnd env).1.PrecipPercnt = "--" ∧
    (DownloadModel payload fetchFailed funcCalled now nowEnd env).1.PrecipDay = "--" ∧
    (DownloadModel payload fetchFailed funcCalled now nowEnd env).1.PrecipAmount = "--" ∧
    (DownloadModel payload fetchFailed funcCalled now nowEnd env).1.PrecipType = "--" ∧
    (DownloadModel payload fetchFailed funcCalled now nowEnd env).1.Icon = "--" ∧
    (DownloadModel payload fetchFailed funcCalled now nowEnd env).1.Conditions = "" ∧
    (DownloadModel payload fetchFailed funcCalled now nowEnd env).1.Status =
      "Forecast currently\nunavailable..." ∧
    (DownloadModel payload fetchFailed funcCalled now nowEnd env).1.stationOnline = false ∧
    (DownloadModel payload fetchFailed funcCalled now nowEnd env).1.stationUsed = false ∧
    (DownloadModel payload fetchFailed funcCalled now nowEnd env).2.1 = true ∧
    (DownloadModel payload fetchFailed funcCalled now nowEnd env).2.2 =
      secondsSchedFail funcCalled nowEnd := by
  simp only [DownloadModel, h, collapsedMetData, if_true]
  norm_num [collapsedMetData]

/-- Witness for `c3_snapshot_collapse` on the concrete payload that has
no `forecast` key at all. -/
theorem c3_snapshot_collapse_witness :
    (DownloadModel ⟨none, none⟩ false 0 0 0 trivialFormatEnv).1 =
      collapsedMetData 0 ∧
    (DownloadModel ⟨none, none⟩ false 0 0 0 trivialFormatEnv).1.Valid = "--" ∧
    (DownloadModel ⟨none, none⟩ false 0 0 0 trivialFormatEnv).1.Temp = "--" ∧
    (DownloadModel ⟨none, none⟩ false 0 0 0 trivialFormatEnv).1.highTemp = "--" ∧
    (DownloadModel ⟨none, none⟩ false 0 0 0 trivialFormatEnv).1.lowTemp = "--" ∧
    (DownloadModel ⟨none, none⟩ false 0 0 0 trivialFormatEnv).1.WindSpd = "--" ∧
    (DownloadModel ⟨none, none⟩ false 0 0 0 trivialFormatEnv).1.WindGust = "--" ∧
    (DownloadModel ⟨none, none⟩ false 0 0 0 trivialFormatEnv).1.WindDir = "--" ∧
    (DownloadModel ⟨none, none⟩ false 0 0 0 trivialFormatEnv).1.PrecipPercnt = "--" ∧
    (DownloadModel ⟨none, none⟩ false 0 0 0 trivialFormatEnv).1.PrecipDay = "--" ∧
    (DownloadModel ⟨none, none⟩ false 0 0 0 trivialFormatEnv).1.PrecipAmount = "--" ∧
    (DownloadModel ⟨none, none⟩ false 0 0 0 trivialFormatEnv).1.PrecipType = "--" ∧
    (DownloadModel ⟨none, none⟩ false 0 0 0 trivialFormatEnv).1.Icon = "--" ∧
    (DownloadModel ⟨none, none⟩ false 0 0 0 trivialFormatEnv).1.Conditions = "" ∧
    (DownloadModel ⟨none, none⟩ false 0 0 0 trivialFormatEnv).1.Status =
      "Forecast currently\nunavailable..." ∧
    (DownloadModel ⟨none, none⟩ false 0 0 0 trivialFormatEnv).1.stationOnline = false ∧
    (DownloadModel ⟨none, none⟩ false 0 0 0 trivialFormatEnv).1.stationUsed = false ∧
    (DownloadModel ⟨none, none⟩ false 0 0 0 trivialFormatEnv).2.1 = true ∧
    (DownloadModel ⟨none, none⟩ false 0 0 0 trivialFormatEnv).2.2 =
      secondsSchedFail 0 0 :=
  c3_snapshot_collapse ⟨none, none⟩ false 0 0 0 trivialFormatEnv
    (.keyError "forecast") rfl

/-- C5: when the existing configuration's `System.Version` (after the
`v3.51 → v3.5.1` alias) is not semantically older than the default
schema's `v3.6`, `update()` skips the whole rebuild-and-write block, so
`wfpiconsole.ini` is left byte-for-byte unchanged. -/
theorem c5_update_noop (cur : String) (l : List Nat)
    (hp : parseVersion (tweakVersion cur) = some l)
    (hlt : verLtL l [3, 6] = false) (current rebuilt : List String) :
    parseVersion defaultVersionStr = some [3, 6] ∧
    updateResult cur current rebuilt = current := by
  refine ⟨rfl, ?_⟩
  unfold updateResult versionOlder
  rw [hp, show parseVersion defaultVersionStr = some [3, 6] from rfl]
  simp [hlt]

/-- Witness for `c5_update_noop` at an up-to-date configuration
(`System.Version = v3.6`). -/
theorem c5_update_noop_witness :
    parseVersion defaultVersionStr = some [3, 6] ∧
    updateResult "v3.6" ["[Keys]", "WeatherFlow = k"] ["rebuilt"] =
      ["[Keys]", "WeatherFlow = k"] :=
  c5_update_noop "v3.6" [3, 6] rfl (by decide)
    ["[Keys]", "WeatherFlow = k"] ["rebuilt"]

/-- C9: on `connection_opened` with both `TempestID` and `SkyID`
non-empty, the frames sent are exactly `listen_start` and
`listen_rapid_start` for the Tempest device followed by the independent
air subscriptions; every wind-class frame carries the Tempest ID (no Sky
subscription), each air `listen_start` is present iff its ID is
non-empty, and every frame's device ID is the Tempest, outdoor-air or
indoor-air ID. -/
theorem c9_subscriptions (t s o ia : String) (ht : t ≠ "") (hsk : s ≠ "") :
    connOpenedMsgs t s o ia =
      [⟨.listenStart, t, "Sky"⟩, ⟨.listenRapidStart, t, "rapidWind"⟩]
        ++ (if o ≠ "" then [⟨.listenStart, o, "OutdoorAir"⟩] else [])
        ++ (if ia ≠ "" then [⟨.listenStart, ia, "IndoorAir"⟩] else []) ∧
    (∀ m ∈ connOpenedMsgs t s o ia,
      m.label = "Sky" ∨ m.label = "rapidWind" → m.device_id = t) ∧
    ((∃ m ∈ connOpenedMsgs t s o ia, m.label = "OutdoorAir") ↔ o ≠ "") ∧
    ((∃ m ∈ connOpenedMsgs t s o ia, m.label = "IndoorAir") ↔ ia ≠ "") ∧
    (∀ m ∈ connOpenedMsgs t s o ia,
      m.device_id = t ∨ m.device_id = o ∨ m.device_id = ia) := by
  have heq : connOpenedMsgs t s o ia =
      [⟨.listenStart, t, "Sky"⟩, ⟨.listenRapidStart, t, "rapidWind"⟩]
        ++ (if o ≠ "" then [⟨.listenStart, o, "OutdoorAir"⟩] else [])
        ++ (if ia ≠ "" then [⟨.listenStart, ia, "IndoorAir"⟩] else []) := by
    unfold connOpenedMsgs
    rw [if_pos ht]
  refine ⟨heq, ?_, ?_, ?_, ?_⟩ <;> rw [heq] <;>
    by_cases ho : o = "" <;> by_cases hia : ia = "" <;>
      simp [ho, hia]

/-- Witness for `c9_subscriptions` with TempestID "1001", SkyID "2002",
OutAirID "3003" and empty InAirID. -/
theorem c9_subscriptions_witness :
    connOpenedMsgs "1001" "2002" "3003" "" =
      [⟨.listenStart, "1001", "Sky"⟩, ⟨.listenRapidStart, "1001", "rapidWind"⟩]
        ++ (if "3003" ≠ "" then [⟨.listenStart, "3003", "OutdoorAir"⟩] else [])
        ++ (if "" ≠ "" then [⟨.listenStart, "", "IndoorAir"⟩] else []) ∧
    (∀ m ∈ connOpenedMsgs "1001" "2002" "3003" "",
      m.label = "Sky" ∨ m.label = "rapidWind" → m.device_id = "1001") ∧
    ((∃ m ∈ connOpenedMsgs "1001" "2002" "3003" "", m.label = "OutdoorAir") ↔
      "3003" ≠ "") ∧
    ((∃ m ∈ connOpenedMsgs "1001" "2002" "3003" "", m.label = "IndoorAir") ↔
      ("" : String) ≠ "") ∧
    (∀ m ∈ connOpenedMsgs "1001" "2002" "3003" "",
      m.device_id = "1001" ∨ m.device_id = "3003" ∨ m.device_id = "") :=
  c9_subscriptions "1001" "2002" "3003" "" (by decide) (by decide)

theorem pyRound0_intCast (n : ℤ) : pyRound0 (n : ℚ) = n := by
  unfold pyRound0
  rw [Int.floor_intCast]
  rw [if_pos]
  simp

theorem pyFormat0f_intCast (n : ℤ) : pyFormat0f (n : ℚ) = toString n := by
  rw [pyFormat0f, pyRound0_intCast]

/-- C10: a panel index with no daily entry (or one lacking a required
field) is filled with the placeholder values, which still pass through
unit conversion and formatting: date `0/0`, weekday `Mon`, precip `0`,
weather sentinel `--` (the internal `XX` placeholder is not
whitelisted), and tempMax/tempMin showing 0 °C converted to the
configured unit — `32` under Fahrenheit, `0` under Celsius. -/
theorem c10_daily_placeholder (daily : List WFDay) (yearOf : Nat → Int)
    (weekdayOf : Int → Nat → Nat → Fin 7) (i : Nat) (e : PyErr)
    (h : dailyTryExtract daily i yearOf weekdayOf = .error e) :
    extractDailyPanel daily "f" yearOf weekdayOf i =
      ⟨"0/0", ("32", "f"), ("32", "f"), ("0", " %"), "Mon", "--"⟩ ∧
    extractDailyPanel daily "c" yearOf weekdayOf i =
      ⟨"0/0", ("0", "c"), ("0", "c"), ("0", " %"), "Mon", "--"⟩ := by
  have h32 : ((0 : ℚ) * 9 / 5 + 32) = ((32 : ℤ) : ℚ) := by norm_num
  have hof : pyFormat0f ((0 : ℚ) * 9 / 5 + 32) = "32" := by
    rw [h32, pyFormat0f_intCast]; rfl
  have ho0 : pyFormat0f (0 : ℚ) = "0" := by
    rw [show ((0 : ℚ)) = ((0 : ℤ) : ℚ) by norm_num, pyFormat0f_intCast]; rfl
  have ef : extractDailyPanel daily "f" yearOf weekdayOf i =
      ⟨"0/0", (pyFormat0f ((0 : ℚ) * 9 / 5 + 32), "f"),
        (pyFormat0f ((0 : ℚ) * 9 / 5 + 32), "f"),
        (pyFormat0f (0 : ℚ), " %"), "Mon", "--"⟩ := by
    unfold extractDailyPanel
    rw [h]
    rfl
  have ec : extractDailyPanel daily "c" yearOf weekdayOf i =
      ⟨"0/0", (pyFormat0f (0 : ℚ), "c"), (pyFormat0f (0 : ℚ), "c"),
        (pyFormat0f (0 : ℚ), " %"), "Mon", "--"⟩ := by
    unfold extractDailyPanel
    rw [h]
    rfl
  rw [ef, ec, hof, ho0]
  exact ⟨rfl, rfl⟩

/-- Witness for `c10_daily_placeholder` on an empty daily list
(`IndexError` at panel 0). -/
theorem c10_daily_placeholder_witness :
    extractDailyPanel [] "f" (fun _ => 0) (fun _ _ _ => 0) 0 =
      ⟨"0/0", ("32", "f"), ("32", "f"), ("0", " %"), "Mon", "--"⟩ ∧
    extractDailyPanel [] "c" (fun _ => 0) (fun _ _ _ => 0) 0 =
      ⟨"0/0", ("0", "c"), ("0", "c"), ("0", " %"), "Mon", "--"⟩ :=
  c10_daily_placeholder [] (fun _ => 0) (fun _ _ _ => 0) 0 .indexError rfl

end WFPi
